import Mathlib

/-!
# Verification of the libvpuppr tracking-data pipeline

A shallow embedding of the protocol decoders (`src/data_parser.rs`,
`src/model/tracking_data.rs`), the expression-mapping builder and the
frame-application functions of `src/puppets/vrm_puppet.rs`, and the
MeowFace receiver lifecycle of `src/receivers/meow_face.rs`.

Strings are modelled as `List Char` (the Rust code only splits and compares
on ASCII separators).  `f32` values are modelled by the inductive `F32`:
finite values as exact rationals plus explicit `nan` / signed-infinity
constructors, because Rust's `f32` parser accepts the spellings `nan` /
`inf` / `infinity` and the claims under study are sensitive to those.
Rounding of finite values is below the resolution of this model.
-/

set_option allowUnsafeReducibility true
attribute [semireducible] Rat.add Rat.mul Rat.inv Rat.sub

namespace Vpuppr

/-! ## String primitives (embeddings of the Rust `str` methods used) -/

/-- Embeds Rust `str::split(sep)` for a one-character separator: splits on
every occurrence, keeps empty chunks, `"" → [""]`.  `acc` is the current
chunk, accumulated in reverse. -/
def splitOnCharAux (c : Char) : List Char → List Char → List (List Char)
  | [], acc => [acc.reverse]
  | x :: xs, acc =>
    if x = c then acc.reverse :: splitOnCharAux c xs []
    else splitOnCharAux c xs (x :: acc)

def splitOnChar (c : Char) (l : List Char) : List (List Char) :=
  splitOnCharAux c l []

/-- Embeds Rust `str::split_once(sep)` for a one-character separator:
splits at the first occurrence, `none` if the separator is absent. -/
def splitOnceChar (c : Char) : List Char → Option (List Char × List Char)
  | [] => none
  | x :: xs =>
    if x = c then some ([], xs)
    else (splitOnceChar c xs).map (fun p => (x :: p.1, p.2))

/-- Embeds Rust `str::splitn(n, sep)`: at most `n` chunks, the final chunk
carrying the unsplit remainder. -/
def splitNChar : Nat → Char → List Char → List (List Char)
  | 0, _, _ => []
  | 1, _, l => [l]
  | n + 2, c, l =>
    match splitOnceChar c l with
    | none => [l]
    | some (a, b) => a :: splitNChar (n + 1) c b

/-- `startsWithPat pat l` : `pat` is a leading segment of `l`. -/
def startsWithPat : List Char → List Char → Bool
  | [], _ => true
  | _ :: _, [] => false
  | p :: ps, x :: xs => p = x && startsWithPat ps xs

/-- Fuel-indexed scanner behind `replaceList`; the fuel (initially the
input length, which every step strictly decreases) keeps the recursion
structural so that concrete inputs evaluate inside the kernel. -/
def replaceFuel (pat repl : List Char) : Nat → List Char → List Char
  | _, [] => []
  | 0, l => l
  | fuel + 1, x :: xs =>
    if pat.isEmpty then x :: xs
    else if startsWithPat pat (x :: xs) then
      repl ++ replaceFuel pat repl fuel (xs.drop (pat.length - 1))
    else x :: replaceFuel pat repl fuel xs

/-- Embeds Rust `str::replace(pat, repl)`: replaces all non-overlapping
occurrences of `pat`, scanning left to right.  An empty pattern (never used
by the source) is a no-op here. -/
def replaceList (pat repl l : List Char) : List Char :=
  replaceFuel pat repl l.length l

/-- ASCII lowercasing, embedding Rust `str::to_lowercase` on the ASCII
inputs this protocol carries. -/
def lowerList (l : List Char) : List Char :=
  l.map Char.toLower

/-! ## The `f32` model and the numeric parsers -/

/-- Model of an `f32` value: exact rational for finite values, plus `nan`
and signed infinity. -/
inductive F32 where
  | nan : F32
  | inf (positive : Bool) : F32
  | num (q : ℚ) : F32
  deriving DecidableEq, Repr

instance : Inhabited F32 := ⟨F32.num 0⟩

def isDigitChar (c : Char) : Bool := '0' ≤ c && c ≤ '9'

def digitsToNat (l : List Char) : Nat :=
  l.foldl (fun acc c => acc * 10 + (c.toNat - '0'.toNat)) 0

/-- Case-insensitive comparison against an ASCII keyword. -/
def eqKeyword (l : List Char) (kw : List Char) : Bool :=
  lowerList l = kw

/-- Parses the decimal-number part of Rust's `f32` grammar (after the sign):
`Digits '.'? Digits? Exp?` or `'.' Digits Exp?` with `Exp ::= (e|E) Sign?
Digits`. -/
def parseDecimalMag (l : List Char) : Option ℚ :=
  let intPart := l.takeWhile isDigitChar
  let rest := l.dropWhile isDigitChar
  let (fracPart, rest2) :=
    match rest with
    | '.' :: r => (r.takeWhile isDigitChar, r.dropWhile isDigitChar)
    | _ => ([], rest)
  let rest3 := if rest.head? = some '.' then rest2 else rest
  if intPart.isEmpty && fracPart.isEmpty then none
  else
    let mag : ℚ := (digitsToNat intPart : ℚ) +
      (digitsToNat fracPart : ℚ) / ((10 : ℚ) ^ fracPart.length)
    match rest3 with
    | [] => some mag
    | e :: r4 =>
      if e = 'e' ∨ e = 'E' then
        let (expNeg, digits) :=
          match r4 with
          | '+' :: d => (false, d)
          | '-' :: d => (true, d)
          | d => (false, d)
        if digits.isEmpty ∨ ¬ digits.all isDigitChar then none
        else
          let ex : ℤ := if expNeg then -(digitsToNat digits : ℤ) else (digitsToNat digits : ℤ)
          some (mag * (10 : ℚ) ^ ex)
      else none

/-- Embeds Rust `"…".parse::<f32>()`: optional sign, then (case-insensitive)
`inf` / `infinity` / `nan` or a decimal number with optional exponent.
Finite results are kept exact; overflow-to-infinity of huge finite literals
is below the resolution of the model. -/
def parseF32 (l : List Char) : Option F32 :=
  let (neg, body) :=
    match l with
    | '+' :: r => (false, r)
    | '-' :: r => (true, r)
    | r => (false, r)
  if eqKeyword body ("inf".toList) ∨ eqKeyword body ("infinity".toList) then
    some (F32.inf (!neg))
  else if eqKeyword body ("nan".toList) then
    some F32.nan
  else
    (parseDecimalMag body).map (fun q => F32.num (if neg then -q else q))

/-- Embeds Rust `"…".parse::<i16>()`: optional sign, one or more digits,
nothing else, result within `[-32768, 32767]`. -/
def parseI16 (l : List Char) : Option ℤ :=
  let (neg, body) :=
    match l with
    | '+' :: r => (false, r)
    | '-' :: r => (true, r)
    | r => (false, r)
  if body.isEmpty ∨ ¬ body.all isDigitChar then none
  else
    let v : ℤ := if neg then -(digitsToNat body : ℤ) else (digitsToNat body : ℤ)
    if -32768 ≤ v ∧ v ≤ 32767 then some v else none

end Vpuppr

namespace Vpuppr

/-! ## Tracking-frame data model -/

/-- A 3-component vector of `f32` values (Godot `Vector3`). -/
structure Vec3F where
  x : F32
  y : F32
  z : F32
  deriving DecidableEq, Repr

def Vec3F.zero : Vec3F := ⟨F32.num 0, F32.num 0, F32.num 0⟩

/-- Insert-with-overwrite on an association list; models both a Godot
`Dictionary` insert and a Rust `HashMap` insert (an existing key keeps its
slot, a fresh key is appended). -/
def dictInsert {α β : Type} [DecidableEq α] (m : List (α × β)) (k : α) (v : β) :
    List (α × β) :=
  if m.any (fun p => p.1 = k) then
    m.map (fun p => if p.1 = k then (k, v) else p)
  else m ++ [(k, v)]

/-- Key lookup on an association list. -/
def dictLookup {α β : Type} [DecidableEq α] (m : List (α × β)) (k : α) : Option β :=
  (m.find? (fun p => p.1 = k)).map (fun p => p.2)

/-- `vals.get(i)` followed by `parse::<f32>().unwrap_or_default()`, as used
for every vector component of the text decoder: a missing or unparsable
chunk yields `0.0`. -/
def getF32 (vals : List (List Char)) (i : Nat) : F32 :=
  match vals.get? i with
  | none => F32.num 0
  | some s => (parseF32 s).getD (F32.num 0)

/-! ## `DataParser::ifacial_mocap` (src/data_parser.rs) -/

/-- The dictionary returned by `DataParser::ifacial_mocap`.  The vector
keys are only inserted when the corresponding token occurs (modelled with
`Option`); `blend_shapes` is always inserted. -/
structure IfmDict where
  rotation : Option Vec3F := none
  position : Option Vec3F := none
  right_eye : Option Vec3F := none
  left_eye : Option Vec3F := none
  blend_shapes : List (List Char × ℚ) := []
  deriving DecidableEq, Repr

/-- Key normalisation of the `DataParser::ifacial_mocap` blend-shape
branch: `replace("_L", "left")`, then `replace("_R", "right")`, then
`to_lowercase()`. -/
def ifmNormalizeKey (k : List Char) : List Char :=
  lowerList (replaceList "_R".toList "right".toList
    (replaceList "_L".toList "left".toList k))

/-- Value of the `DataParser::ifacial_mocap` blend-shape branch:
`f32::from(v.parse::<i16>().unwrap_or(0)) / 100.0`. -/
def ifmBlendValue (v : List Char) : ℚ :=
  ((parseI16 v).getD 0 : ℚ) / 100

/-- One `|`-separated token of `DataParser::ifacial_mocap`. -/
def ifmProcessToken (st : IfmDict) (tok : List Char) : IfmDict :=
  match splitOnceChar '#' tok with
  | some (k, v) =>
    if k = "=head".toList then
      let vals := splitNChar 5 ',' v
      { st with
        rotation := some ⟨getF32 vals 0, getF32 vals 1, getF32 vals 2⟩
        position := some ⟨getF32 vals 3, getF32 vals 4, getF32 vals 5⟩ }
    else if k = "rightEye".toList then
      let vals := splitNChar 2 ',' v
      { st with right_eye := some ⟨getF32 vals 0, getF32 vals 1, getF32 vals 2⟩ }
    else if k = "leftEye".toList then
      let vals := splitNChar 2 ',' v
      { st with left_eye := some ⟨getF32 vals 0, getF32 vals 1, getF32 vals 2⟩ }
    else st
  | none =>
    match splitOnceChar '-' tok with
    | some (k, v) =>
      { st with blend_shapes := dictInsert st.blend_shapes (ifmNormalizeKey k) (ifmBlendValue v) }
    | none => st

namespace DataParser

/-- Embeds `DataParser::ifacial_mocap` on an already UTF-8-decoded input
(the `Err` branch of `from_utf8` yields the empty dictionary and is outside
this model, which starts from characters). -/
def ifacialMocap (input : List Char) : IfmDict :=
  (splitOnChar '|' input).foldl ifmProcessToken {}

end DataParser

/-! ## `IFacialMocapData::from` (src/model/tracking_data.rs) -/

/-- The `IFacialMocapData` struct: every vector field defaults to the zero
vector, blend-shape values are raw `f32`s. -/
structure IfmData where
  position : Vec3F := Vec3F.zero
  rotation : Vec3F := Vec3F.zero
  right_eye : Vec3F := Vec3F.zero
  left_eye : Vec3F := Vec3F.zero
  blend_shapes : List (List Char × F32) := []
  deriving DecidableEq, Repr

/-- Key normalisation of the `IFacialMocapData::from` blend-shape branch:
`replace("_L", "left")` then `replace("_R", "right")` — __no__
lowercasing. -/
def ifmFromKey (k : List Char) : List Char :=
  replaceList "_R".toList "right".toList
    (replaceList "_L".toList "left".toList k)

/-- IEEE division `100.0 / b` as computed by the `IFacialMocapData::from`
blend-shape branch (`100.0 / v.parse().unwrap_or(0.0)`): a zero divisor
yields infinity, an infinite divisor yields zero, NaN propagates. -/
def f32HundredDiv : F32 → F32
  | F32.nan => F32.nan
  | F32.inf _ => F32.num 0
  | F32.num q => if q = 0 then F32.inf true else F32.num (100 / q)

/-- Value of the `IFacialMocapData::from` blend-shape branch:
`100.0 / v.parse::<f32>().unwrap_or(0.0)`. -/
def ifmFromValue (v : List Char) : F32 :=
  f32HundredDiv ((parseF32 v).getD (F32.num 0))

/-- One `|`-separated token of `IFacialMocapData::from`. -/
def ifmFromProcessToken (st : IfmData) (tok : List Char) : IfmData :=
  match splitOnceChar '#' tok with
  | some (k, v) =>
    if k = "=head".toList then
      let vals := splitNChar 5 ',' v
      { st with
        rotation := ⟨getF32 vals 0, getF32 vals 1, getF32 vals 2⟩
        position := ⟨getF32 vals 3, getF32 vals 4, getF32 vals 5⟩ }
    else if k = "rightEye".toList then
      let vals := splitNChar 2 ',' v
      { st with right_eye := ⟨getF32 vals 0, getF32 vals 1, getF32 vals 2⟩ }
    else if k = "leftEye".toList then
      let vals := splitNChar 2 ',' v
      { st with left_eye := ⟨getF32 vals 0, getF32 vals 1, getF32 vals 2⟩ }
    else st
  | none =>
    match splitOnceChar '-' tok with
    | some (k, v) =>
      { st with blend_shapes := dictInsert st.blend_shapes (ifmFromKey k) (ifmFromValue v) }
    | none => st

namespace IFacialMocapData

/-- Embeds `IFacialMocapData::from` on an already UTF-8-decoded input. -/
def fromChars (input : List Char) : IfmData :=
  (splitOnChar '|' input).foldl ifmFromProcessToken {}

end IFacialMocapData

end Vpuppr

namespace Vpuppr

/-! ## JSON documents and the VTube Studio decoders -/

/-- A JSON document.  (JSON numbers are exact decimals, hence rationals;
JSON has no NaN/infinity literal.) -/
inductive Json where
  | null : Json
  | boolean (b : Bool) : Json
  | number (q : ℚ) : Json
  | string (s : List Char) : Json
  | array (items : List Json) : Json
  | object (fields : List (List Char × Json)) : Json

/-- First binding of a key in a JSON object; `none` for non-objects. -/
def jsonLookup (j : Json) (k : List Char) : Option Json :=
  match j with
  | Json.object fields => (fields.find? (fun p => p.1 = k)).map (fun p => p.2)
  | _ => none

/-- The key set of a JSON object (empty for non-objects). -/
def jsonKeys (j : Json) : List (List Char) :=
  match j with
  | Json.object fields => fields.map (fun p => p.1)
  | _ => []

/-- serde deserialisation of an `f32` struct field from JSON: only a JSON
number is accepted. -/
def decodeF32 (j : Json) : Option F32 :=
  match j with
  | Json.number q => some (F32.num q)
  | _ => none

/-- serde deserialisation of a Godot `Vector3`: an object carrying numeric
`x`, `y`, `z` fields (a missing or non-numeric component fails). -/
def decodeVec3 (j : Json) : Option Vec3F :=
  match jsonLookup j ("x".toList), jsonLookup j ("y".toList), jsonLookup j ("z".toList) with
  | some jx, some jy, some jz =>
    match decodeF32 jx, decodeF32 jy, decodeF32 jz with
    | some x, some y, some z => some ⟨x, y, z⟩
    | _, _, _ => none
  | _, _, _ => none

/-- serde deserialisation of an `Option<T>` struct field: an absent key or
an explicit `null` is `None`; a present value must decode or the whole
document fails. -/
def decodeOptField {α : Type} (j : Json) (key : List Char) (dec : Json → Option α) :
    Option (Option α) :=
  match jsonLookup j key with
  | none => some none
  | some Json.null => some none
  | some v => (dec v).map some

/-- serde deserialisation of one `VtBlendShape { k: String, v: f32 }`. -/
def decodeBlendShape (j : Json) : Option (List Char × ℚ) :=
  match jsonLookup j ("k".toList), jsonLookup j ("v".toList) with
  | some (Json.string k), some (Json.number v) => some (k, v)
  | _, _ => none

/-- serde deserialisation of the `BlendShapes` array. -/
def decodeBlendShapes (j : Json) : Option (List (List Char × ℚ)) :=
  match j with
  | Json.array items => items.mapM decodeBlendShape
  | _ => none

/-- The `VTubeStudioData` struct (src/model/tracking_data.rs): all fields
optional, `None` by default. -/
structure VtsData where
  rotation : Option Vec3F := none
  position : Option Vec3F := none
  eye_left : Option Vec3F := none
  eye_right : Option Vec3F := none
  blend_shapes : Option (List (List Char × ℚ)) := none
  deriving DecidableEq, Repr

/-- serde deserialisation of a whole `VTubeStudioData` document: the input
must be a JSON object; each renamed field (`Rotation`, `Position`,
`EyeLeft`, `EyeRight`, `BlendShapes`) is an `Option` that stays `None` when
absent; unknown keys are ignored; any present-but-malformed field fails the
whole document. -/
def decodeVts (j : Json) : Option VtsData :=
  match j with
  | Json.object _ =>
    match decodeOptField j ("Rotation".toList) decodeVec3,
        decodeOptField j ("Position".toList) decodeVec3,
        decodeOptField j ("EyeLeft".toList) decodeVec3,
        decodeOptField j ("EyeRight".toList) decodeVec3,
        decodeOptField j ("BlendShapes".toList) decodeBlendShapes with
    | some rot, some pos, some el, some er, some bs =>
      some { rotation := rot, position := pos, eye_left := el, eye_right := er,
             blend_shapes := bs }
    | _, _, _, _, _ => none
  | _ => none

namespace VTubeStudioData

/-- Embeds `VTubeStudioData::from`: a document that fails to deserialise
yields `Self::default()` (all fields `None`). -/
def fromJson (j : Json) : VtsData :=
  (decodeVts j).getD {}

end VTubeStudioData

/-- The dictionary returned by `DataParser::vtube_studio`
(src/data_parser.rs): all five keys are inserted unconditionally, each
`Option` field collapsed with `unwrap_or_default()` — an absent vector
becomes the zero vector — and blend-shape keys lowercased at decode
time. -/
structure VtsDict where
  rotation : Vec3F
  position : Vec3F
  eye_left : Vec3F
  eye_right : Vec3F
  blend_shapes : List (List Char × ℚ)
  deriving DecidableEq, Repr

namespace DataParser

/-- Embeds `DataParser::vtube_studio`. -/
def vtubeStudio (j : Json) : VtsDict :=
  let d := (decodeVts j).getD {}
  { rotation := d.rotation.getD Vec3F.zero
    position := d.position.getD Vec3F.zero
    eye_left := d.eye_left.getD Vec3F.zero
    eye_right := d.eye_right.getD Vec3F.zero
    blend_shapes := (d.blend_shapes.getD []).map (fun p => (lowerList p.1, p.2)) }

end DataParser

end Vpuppr

namespace Vpuppr

/-! ## Expression-mapping builder (src/puppets/vrm_puppet.rs) -/

/-- The Godot animation track types the builder inspects
(`TrackType::TYPE_ROTATION_3D`, `TrackType::TYPE_BLEND_SHAPE`, anything
else). -/
inductive TrackKind where
  | rotation3d : TrackKind
  | blendShape : TrackKind
  | otherKind : TrackKind
  deriving DecidableEq, Repr

/-- One animation track as the builder sees it: its path
(`track_get_path`), its type, and its keyframe count
(`track_get_key_count`). -/
structure Track where
  path : List Char
  kind : TrackKind
  keyCount : Nat
  deriving DecidableEq, Repr

/-- One animation clip: its track list. -/
structure Anim where
  tracks : List Track
  deriving DecidableEq, Repr

/-- The animation player as the builder sees it: the clip-name list
(`get_animation_list`) with each name's `get_animation` result — `none`
models the engine lookup failing, which makes the builder bail out. -/
structure AnimPlayer where
  animations : List (List Char × Option Anim)
  deriving DecidableEq, Repr

/-- One track of the per-clip scan of
`populate_and_modify_expression_mappings`: skip a track whose type is
neither rotation-3D nor blend-shape, skip a path with no `:` to split on,
skip a track with no keyframe, push the morph name for a blend-shape track
(a rotation track is logged as unhandled and contributes nothing). -/
def morphStep (morphs : List (List Char)) (t : Track) : List (List Char) :=
  if ¬ (t.kind = TrackKind.rotation3d ∨ t.kind = TrackKind.blendShape) then morphs
  else
    match splitOnceChar ':' t.path with
    | none => morphs
    | some _p =>
      if t.keyCount < 1 then morphs
      else
        match t.kind with
        | TrackKind.blendShape => morphs ++ [_p.2]
        | _ => morphs

/-- The whole per-clip track scan. -/
def morphsOfAnim (a : Anim) : List (List Char) :=
  a.tracks.foldl morphStep []

/-- The map type built by the builder: lowercased clip name → morph-name
list, with `HashMap`-insert overwrite semantics. -/
def ExprMappings : Type := List (List Char × List (List Char))

/-- Embeds `populate_and_modify_expression_mappings`: walk the clips in
order, and for each clip insert `(lowercase(name), morphs)` — overwriting
any earlier entry with the same key.  A clip whose animation cannot be
fetched aborts the walk, keeping what was inserted so far. -/
def populateExpressionMappings (mappings : ExprMappings) :
    List (List Char × Option Anim) → ExprMappings
  | [] => mappings
  | (_, none) :: _ => mappings
  | (name, some a) :: rest =>
    populateExpressionMappings
      (dictInsert mappings (lowerList name) (morphsOfAnim a)) rest

/-- The claim-side qualifier for one track: it contributes its morph name
exactly when it is a blend-shape-weight track with at least one keyframe
and a `:`-splittable path. -/
def trackMorph? (t : Track) : Option (List Char) :=
  if t.kind = TrackKind.blendShape ∧ 1 ≤ t.keyCount then
    (splitOnceChar ':' t.path).map (fun p => p.2)
  else none

/-- The claim-side qualifier: the morph names of exactly the qualifying
tracks, in track order. -/
def qualifyingMorphs (a : Anim) : List (List Char) :=
  a.tracks.filterMap trackMorph?

/-- The last clip of the list whose lowercased name is `key` (`HashMap`
overwrite means this clip's morphs win). -/
def lastClipNamed (anims : List (List Char × Option Anim)) (key : List Char) :
    Option (List Char × Option Anim) :=
  anims.reverse.find? (fun p => lowerList p.1 = key)

/-- The animation of the last clip named `key` (after lowercasing). -/
def lastAnimNamed (anims : List (List Char × Option Anim)) (key : List Char) :
    Option Anim :=
  (lastClipNamed anims key).bind (fun p => p.2)

end Vpuppr

namespace Vpuppr

/-! ## Applying a VTube Studio frame (`VrmPuppet::handle_vtube_studio`) -/

/-- What the puppet reads from a Godot `Node3D` armature target: its
rotation-degrees and position properties (written through
`call_deferred`, modelled as direct writes). -/
structure NodeState where
  rotationDegrees : Vec3F
  position : Vec3F
  deriving DecidableEq, Repr

/-- The `IkTargets3d` slice used by `handle_vtube_studio`: the three
armature nodes it may write, plus the captured starting transforms — kept
abstract through exactly the projections the source reads (origin of each
starting transform, and the YXZ Euler angles of the head's starting
basis). -/
structure IkTargetsState where
  head : Option NodeState
  leftHand : Option NodeState
  rightHand : Option NodeState
  headStartingOrigin : Vec3F
  headStartingEulerYXZ : Vec3F
  leftHandStartingOrigin : Vec3F
  rightHandStartingOrigin : Vec3F
  deriving DecidableEq, Repr

/-- `BlendShapeMapping` (src/puppets.rs): a mesh instance id plus the
`blend_shapes/...` property path (and the captured initial value). -/
structure BlendShapeMapping where
  meshId : ℤ
  blendShapePath : List Char
  value : ℚ
  deriving DecidableEq, Repr

/-- The puppet state `handle_vtube_studio` can read or write: the skeleton
bone poses (never written by this function), the IK target nodes, and the
mesh blend-shape weights keyed by (mesh instance id, property path). -/
structure AvatarState where
  bonePoses : List (Vec3F × Vec3F)
  ikTargets : Option IkTargetsState
  meshMorphs : List ((ℤ × List Char) × ℚ)
  deriving DecidableEq, Repr

/-- The immutable lookup tables built at `ready()` time. -/
structure PuppetMaps where
  expressionMappings : List (List Char × List (List Char))
  blendShapeMappings : List (List Char × BlendShapeMapping)
  deriving DecidableEq, Repr

/-- IEEE-style f32 negation. -/
def f32Neg : F32 → F32
  | F32.nan => F32.nan
  | F32.inf p => F32.inf (!p)
  | F32.num q => F32.num (-q)

/-- IEEE-style f32 addition on the model (finite arithmetic exact). -/
def f32Add : F32 → F32 → F32
  | F32.nan, _ => F32.nan
  | _, F32.nan => F32.nan
  | F32.inf p, F32.inf q => if p = q then F32.inf p else F32.nan
  | F32.inf p, F32.num _ => F32.inf p
  | F32.num _, F32.inf p => F32.inf p
  | F32.num a, F32.num b => F32.num (a + b)

def f32Sub (a b : F32) : F32 := f32Add a (f32Neg b)

/-- IEEE-style f32 multiplication on the model. -/
def f32Mul : F32 → F32 → F32
  | F32.nan, _ => F32.nan
  | _, F32.nan => F32.nan
  | F32.inf p, F32.inf q => F32.inf (p = q)
  | F32.inf p, F32.num b => if b = 0 then F32.nan else F32.inf (p = decide (0 < b))
  | F32.num a, F32.inf p => if a = 0 then F32.nan else F32.inf (p = decide (0 < a))
  | F32.num a, F32.num b => F32.num (a * b)

def Vec3F.sub (a b : Vec3F) : Vec3F :=
  ⟨f32Sub a.x b.x, f32Sub a.y b.y, f32Sub a.z b.z⟩

def Vec3F.scale (a : Vec3F) (s : ℚ) : Vec3F :=
  ⟨f32Mul a.x (F32.num s), f32Mul a.y (F32.num s), f32Mul a.z (F32.num s)⟩

/-- The blend-shape application shared by every `handle_*` function: for a
frame entry `(k, v)`, look the lowercased key up in the expression
mappings, and for every morph name found there with a live blend-shape
mapping, write `v` to that mesh's property path.  (`par_iter` writes to
disjoint targets; the model applies them in list order.) -/
def applyBlendShapes (maps : PuppetMaps) (shapes : List (List Char × ℚ))
    (morphs : List ((ℤ × List Char) × ℚ)) : List ((ℤ × List Char) × ℚ) :=
  shapes.foldl
    (fun acc kv =>
      match dictLookup maps.expressionMappings (lowerList kv.1) with
      | none => acc
      | some mappingNames =>
        mappingNames.foldl
          (fun acc2 name =>
            match dictLookup maps.blendShapeMappings name with
            | none => acc2
            | some m => dictInsert acc2 (m.meshId, m.blendShapePath) kv.2)
          acc)
    morphs

/-- Embeds `VrmPuppet::handle_vtube_studio`: the rotation branch runs only
when `data.rotation` is present (swizzle `(y, x, z)`, subtract the head's
starting YXZ Euler, write the head node's rotation-degrees); the position
branch runs only when `data.position` is present (each tracked node gets
`starting_origin - position * 0.02`); the blend-shape branch runs only when
`data.blend_shapes` is present.  Skeleton bone poses are never written. -/
def handleVtubeStudio (maps : PuppetMaps) (data : VtsData) (st : AvatarState) :
    AvatarState :=
  let st :=
    match data.rotation with
    | none => st
    | some rot =>
      match st.ikTargets with
      | none => st
      | some ik =>
        let swizzled : Vec3F := ⟨rot.y, rot.x, rot.z⟩
        let newRot := Vec3F.sub swizzled ik.headStartingEulerYXZ
        match ik.head with
        | none => st
        | some h =>
          { st with ikTargets := some { ik with head := some { h with rotationDegrees := newRot } } }
  let st :=
    match data.position with
    | none => st
    | some pos =>
      match st.ikTargets with
      | none => st
      | some ik =>
        let offset := Vec3F.scale pos (1 / 50)
        let ik :=
          match ik.head with
          | none => ik
          | some h =>
            { ik with head := some { h with position := Vec3F.sub ik.headStartingOrigin offset } }
        let ik :=
          match ik.leftHand with
          | none => ik
          | some h =>
            { ik with leftHand := some { h with position := Vec3F.sub ik.leftHandStartingOrigin offset } }
        let ik :=
          match ik.rightHand with
          | none => ik
          | some h =>
            { ik with rightHand := some { h with position := Vec3F.sub ik.rightHandStartingOrigin offset } }
        { st with ikTargets := some ik }
  match data.blend_shapes with
  | none => st
  | some shapes =>
    { st with meshMorphs := applyBlendShapes maps shapes st.meshMorphs }

end Vpuppr

namespace Vpuppr

/-! ## MeowFace receiver lifecycle (src/receivers/meow_face.rs) -/

/-- The Godot error codes the receiver returns. -/
inductive GdError where
  | ok : GdError
  | errUnconfigured : GdError
  | errCantConnect : GdError
  | errCantCreate : GdError
  | errUnavailable : GdError
  deriving DecidableEq, Repr

/-- The fields of the `MeowFace` struct that the lifecycle methods touch,
each channel/handle modelled by presence.  `ipAddress` is the parsed
`SocketAddrV4`. -/
structure MeowFaceState where
  ipAddress : Option (List Char × Nat)
  receiveHandle : Option Nat
  threadKiller : Option Unit
  receiver : Option Unit
  deriving DecidableEq, Repr

/-- `MeowFace::new()`: nothing configured, nothing running. -/
def meowFaceNew : MeowFaceState :=
  { ipAddress := none, receiveHandle := none, threadKiller := none, receiver := none }

/-- The slice of operating-system state the lifecycle touches: which local
UDP ports currently have a bound socket, and how many worker threads are
alive.  `UdpSocket::bind` on an already-bound port fails (no
`SO_REUSEADDR` is requested), and a socket stays bound until its owner
drops it. -/
structure OsState where
  boundPorts : List Nat
  liveThreads : Nat
  deriving DecidableEq, Repr

/-- Embeds `MeowFace::start`.  `connectOk` models whether
`socket.connect(...)` succeeds (the one OS call whose outcome the local
state does not determine).  Failure paths drop the just-bound socket,
freeing the port; the success path moves the socket into the spawned
worker and records both channel endpoints and the join handle. -/
def meowFaceStart (connectOk : Bool) (st : MeowFaceState) (os : OsState) :
    GdError × MeowFaceState × OsState :=
  if st.ipAddress = none then (GdError.errUnconfigured, st, os)
  else if 21412 ∈ os.boundPorts then (GdError.errCantConnect, st, os)
  else if ¬ connectOk then (GdError.errCantConnect, st, os)
  else
    (GdError.ok,
      { st with
        receiveHandle := some os.liveThreads
        threadKiller := some ()
        receiver := some () },
      { os with boundPorts := 21412 :: os.boundPorts, liveThreads := os.liveThreads + 1 })

/-- Embeds `MeowFace::stop`.  The `Bool` in the result records whether the
call reached the blocking `handle.join()`.  Joining the worker makes it
exit its loop, dropping the socket it owns. -/
def meowFaceStop (st : MeowFaceState) (os : OsState) :
    GdError × MeowFaceState × OsState × Bool :=
  if st.receiveHandle = none then (GdError.errUnavailable, st, os, false)
  else if st.threadKiller = none then (GdError.errUnavailable, st, os, false)
  else
    (GdError.ok,
      { st with receiveHandle := none },
      { os with boundPorts := os.boundPorts.erase 21412, liveThreads := os.liveThreads - 1 },
      true)

/-- What `receiver.try_recv()` can report inside `MeowFace::poll`. -/
inductive TryRecvOutcome where
  | gotData : TryRecvOutcome
  | empty : TryRecvOutcome
  | disconnected : TryRecvOutcome
  deriving DecidableEq, Repr

/-- A crash of the embedded function (a Rust `unwrap` of `None`). -/
inductive Crash where
  | unwrapNone : Crash
  deriving DecidableEq, Repr

/-- Embeds `MeowFace::poll`: `self.receiver.as_ref().unwrap()` crashes when
the data-channel receiver was never installed; otherwise the drain is
non-blocking and a disconnected channel triggers `self.stop()`. -/
def meowFacePoll (st : MeowFaceState) (os : OsState) (chan : TryRecvOutcome) :
    Except Crash (MeowFaceState × OsState) :=
  match st.receiver with
  | none => Except.error Crash.unwrapNone
  | some _ =>
    match chan with
    | TryRecvOutcome.gotData => Except.ok (st, os)
    | TryRecvOutcome.empty => Except.ok (st, os)
    | TryRecvOutcome.disconnected =>
      let r := meowFaceStop st os
      Except.ok (r.2.1, r.2.2.1)

/-! ## MeowFace worker loop -/

/-- The deserialised `InData` payload (all fields required by serde). -/
structure InData where
  timestamp : Nat
  hotkey : ℤ
  faceFound : Bool
  rotation : Vec3F
  position : Vec3F
  eyeLeft : Vec3F
  eyeRight : Vec3F
  blendShapes : List (List Char × ℚ)
  deriving DecidableEq, Repr

/-- Log levels used by the worker. -/
inductive LogLevel where
  | errorL : LogLevel
  | debugL : LogLevel
  deriving DecidableEq, Repr

/-- The outcome of `socket.recv(&mut buf)` an iteration can observe:
a datagram (truncated to the buffer slice's length), or an error — the
timeout case kept distinct from other errors. -/
inductive RecvOutcome where
  | gotDatagram (bytes : List Nat) : RecvOutcome
  | errTimeout : RecvOutcome
  | errOther : RecvOutcome
  deriving DecidableEq, Repr

/-- The environment of one worker-loop iteration: whether the kill channel
has a signal pending, whether the keep-alive send succeeds, and what the
receive reports. -/
structure IterInput where
  killSignal : Bool
  sendOk : Bool
  recv : RecvOutcome
  deriving DecidableEq, Repr

inductive IterOutcome where
  | breakLoop : IterOutcome
  | continueLoop : IterOutcome
  deriving DecidableEq, Repr

/-- What one iteration did: loop control, emitted log lines, and the frame
(if any) forwarded on the data channel. -/
structure IterResult where
  outcome : IterOutcome
  logs : List (LogLevel × List Char)
  sent : Option InData
  deriving DecidableEq, Repr

/-- Embeds one iteration of the worker loop spawned by `MeowFace::start`,
parameterised by the JSON deserialiser (`serde_json::from_slice::<InData>`)
and carrying the receive buffer's length as state.  Faithful points: the
loop head runs `buf.clear()`, so the slice handed to `recv` has the vector's
length — not its capacity; `recv` truncates the datagram to that slice; a
failed deserialisation logs and continues; __every__ receive error takes
the single `Err` arm, which logs at error level and continues. -/
def workerIteration (decode : List Nat → Option InData) (_bufLenBeforeClear : Nat)
    (inp : IterInput) : IterResult × Nat :=
  let bufLen := 0
  if inp.killSignal then (⟨IterOutcome.breakLoop, [], none⟩, bufLen)
  else
    let sendLogs :=
      if inp.sendOk then [(LogLevel.debugL, "sent data".toList)]
      else [(LogLevel.errorL, "Unable to send message on socket".toList)]
    match inp.recv with
    | RecvOutcome.gotDatagram bytes =>
      let buf := bytes.take bufLen
      match decode buf with
      | none =>
        (⟨IterOutcome.continueLoop,
          sendLogs ++ [(LogLevel.errorL, "Error while receiving data".toList)], none⟩, bufLen)
      | some d => (⟨IterOutcome.continueLoop, sendLogs, some d⟩, bufLen)
    | RecvOutcome.errTimeout =>
      (⟨IterOutcome.continueLoop,
        sendLogs ++ [(LogLevel.errorL, "Unexpected error while receiving".toList)], none⟩, bufLen)
    | RecvOutcome.errOther =>
      (⟨IterOutcome.continueLoop,
        sendLogs ++ [(LogLevel.errorL, "Unexpected error while receiving".toList)], none⟩, bufLen)

/-- A whole worker run over a trace of iteration environments, returning
every frame forwarded on the data channel.  The initial buffer is
`Vec::with_capacity(1024)`: capacity 1024 but length `0`. -/
def workerRun (decode : List Nat → Option InData) (bufLen : Nat) :
    List IterInput → List InData
  | [] => []
  | inp :: rest =>
    let r := workerIteration decode bufLen inp
    (r.1.sent.toList) ++
      (if r.1.outcome = IterOutcome.breakLoop then [] else workerRun decode r.2 rest)

end Vpuppr

namespace Vpuppr

/-! ## NaN observers for the text-decoded frame -/

def vec3HasNaN (v : Vec3F) : Bool :=
  v.x = F32.nan || v.y = F32.nan || v.z = F32.nan

def optVecHasNaN : Option Vec3F → Bool
  | none => false
  | some v => vec3HasNaN v

/-- Whether any numeric field of the decoded dictionary is NaN.  (The
blend-shape values of `DataParser::ifacial_mocap` are `i16 / 100.0` and can
never be NaN, which the model reflects by typing them as rationals.) -/
def ifmDictHasNaN (d : IfmDict) : Bool :=
  optVecHasNaN d.rotation || optVecHasNaN d.position ||
    optVecHasNaN d.right_eye || optVecHasNaN d.left_eye

/-- The comma-separated chunks a token feeds to the `f32` parser. -/
def ifmTokenChunks (tok : List Char) : List (List Char) :=
  match splitOnceChar '#' tok with
  | some (k, v) =>
    if k = "=head".toList then splitNChar 5 ',' v
    else if k = "rightEye".toList then splitNChar 2 ',' v
    else if k = "leftEye".toList then splitNChar 2 ',' v
    else []
  | none => []

/-- All chunks of an input that reach the `f32` parser. -/
def ifmNumChunks (input : List Char) : List (List Char) :=
  ((splitOnChar '|' input).map ifmTokenChunks).flatten

/-! ## Lemmas about the string primitives -/

theorem splitOnCharAux_not_mem (c : Char) (l : List Char) (hc : c ∉ l) :
    ∀ acc, splitOnCharAux c l acc = [acc.reverse ++ l] := by
  induction l with
  | nil => intro acc; simp [splitOnCharAux]
  | cons x xs ih =>
    intro acc
    have hx : ¬ x = c := fun h => hc (h ▸ List.mem_cons_self x xs)
    have hxs : c ∉ xs := fun h => hc (List.mem_cons_of_mem x h)
    simp [splitOnCharAux, hx, ih hxs]

/-- A chunk-free input splits to itself. -/
theorem splitOnChar_not_mem (c : Char) (l : List Char) (hc : c ∉ l) :
    splitOnChar c l = [l] := by
  simpa using splitOnCharAux_not_mem c l hc []

theorem splitOnceChar_not_mem (c : Char) (l : List Char) (hc : c ∉ l) :
    splitOnceChar c l = none := by
  induction l with
  | nil => rfl
  | cons x xs ih =>
    have hx : ¬ x = c := fun h => hc (h ▸ List.mem_cons_self x xs)
    have hxs : c ∉ xs := fun h => hc (List.mem_cons_of_mem x h)
    simp [splitOnceChar, hx, ih hxs]

theorem splitOnceChar_first (c : Char) (k v : List Char) (hk : c ∉ k) :
    splitOnceChar c (k ++ c :: v) = some (k, v) := by
  induction k with
  | nil => simp [splitOnceChar]
  | cons x xs ih =>
    have hx : ¬ x = c := fun h => hk (h ▸ List.mem_cons_self x xs)
    have hxs : c ∉ xs := fun h => hk (List.mem_cons_of_mem x h)
    simp [splitOnceChar, hx, ih hxs]

/-! ## Claim C1 — the `=head` token -/

/-- **C1** (code_bug evaluation).  Both text decoders split the `=head`
payload with `splitn(5, ',')`, which caps the chunk list at five entries:
on the six-float payload `1,2,3,4,5,6` the fifth chunk is the unsplit
remainder `"5,6"`, which fails to parse and defaults to `0.0`, and a sixth
chunk (`vals.get(5)`, which the code nevertheless asks for) never exists.
The decoded rotation is the first three values as the claim says, but the
decoded position is `(4, 0, 0)`, not `(4, 5, 6)`. -/
theorem c1_head_splitn_truncation :
    DataParser.ifacialMocap "=head#1,2,3,4,5,6".toList =
      { rotation := some ⟨F32.num 1, F32.num 2, F32.num 3⟩
        position := some ⟨F32.num 4, F32.num 0, F32.num 0⟩ } ∧
    (IFacialMocapData.fromChars "=head#1,2,3,4,5,6".toList).rotation =
      ⟨F32.num 1, F32.num 2, F32.num 3⟩ ∧
    (IFacialMocapData.fromChars "=head#1,2,3,4,5,6".toList).position =
      ⟨F32.num 4, F32.num 0, F32.num 0⟩ ∧
    splitNChar 5 ',' "1,2,3,4,5,6".toList =
      ["1".toList, "2".toList, "3".toList, "4".toList, "5,6".toList] := by
  refine ⟨by decide, by decide, by decide, by decide⟩

/-! ## Claim C2 — text-protocol blend-shape tokens -/

/-- **C2 counterexample.**  The claim fails on the duplicate text decoder
`IFacialMocapData::from` (src/model/tracking_data.rs:111-118): on the token
`A_L-50` it produces the key `"Aleft"` — `_L` is replaced but the key is
__not__ lowercased — and the value `100.0 / 50.0 = 2.0` instead of the
claimed `parse_i16("50") / 100.0 = 0.5`. -/
theorem c2_counterexample_from_decoder :
    IFacialMocapData.fromChars "A_L-50".toList =
      { blend_shapes := [("Aleft".toList, F32.num 2)] } ∧
    "Aleft".toList ≠ "aleft".toList ∧
    F32.num 2 ≠ F32.num (((parseI16 "50".toList).getD 0 : ℚ) / 100) := by
  refine ⟨by decide, by decide, by decide⟩

/-- **C2** (amended: scoped to `DataParser::ifacial_mocap`,
src/data_parser.rs:94-102).  For every blend-shape token `KEY-V` — a token
with no `#`, no `|`, and whose key part has no further `-` — the decoded
dictionary holds exactly one blend shape: its key is `KEY` with every
literal `_L` replaced by `left`, then every `_R` replaced by `right`, then
lowercased, and its value is `V` parsed as an `i16` (0 on failure) divided
by `100.0`. -/
theorem c2_ifacial_mocap_blend_shape_spec (k v : List Char)
    (hhash : '#' ∉ k ++ '-' :: v) (hpipe : '|' ∉ k ++ '-' :: v) (hdash : '-' ∉ k) :
    DataParser.ifacialMocap (k ++ '-' :: v) =
      { blend_shapes :=
          [(lowerList (replaceList "_R".toList "right".toList
              (replaceList "_L".toList "left".toList k)),
            ((parseI16 v).getD 0 : ℚ) / 100)] } := by
  unfold DataParser.ifacialMocap
  rw [splitOnChar_not_mem '|' _ hpipe]
  show ifmProcessToken {} (k ++ '-' :: v) = _
  unfold ifmProcessToken
  rw [splitOnceChar_not_mem '#' _ hhash, splitOnceChar_first '-' k v hdash]
  simp [ifmNormalizeKey, ifmBlendValue, dictInsert]

/-- **C2 witness.**  The token `Smile_L-50` decodes to the single blend
shape `("smileleft", 0.5)`. -/
theorem c2_witness :
    DataParser.ifacialMocap "Smile_L-50".toList =
      { blend_shapes := [("smileleft".toList, (50 : ℚ) / 100)] } := by
  have h := c2_ifacial_mocap_blend_shape_spec "Smile_L".toList "50".toList
    (by decide) (by decide) (by decide)
  rw [show ("Smile_L".toList ++ '-' :: "50".toList) = "Smile_L-50".toList by decide] at h
  rw [h]
  decide

/-! ## Claim C4 — NaN in the text-decoded frame -/

theorem getF32_ne_nan (vals : List (List Char))
    (h : ∀ c ∈ vals, parseF32 c ≠ some F32.nan) (i : Nat) :
    getF32 vals i ≠ F32.nan := by
  unfold getF32
  cases hv : vals.get? i with
  | none => simp
  | some s =>
    have hs : s ∈ vals := List.get?_mem hv
    cases hp : parseF32 s with
    | none => simp [hp]
    | some f =>
      cases f with
      | nan => exact absurd hp (h s hs)
      | inf p => simp [hp]
      | num q => simp [hp]

theorem ifmProcessToken_no_nan (st : IfmDict) (tok : List Char)
    (hst : ifmDictHasNaN st = false)
    (h : ∀ c ∈ ifmTokenChunks tok, parseF32 c ≠ some F32.nan) :
    ifmDictHasNaN (ifmProcessToken st tok) = false := by
  unfold ifmProcessToken
  unfold ifmTokenChunks at h
  cases hsp : splitOnceChar '#' tok with
  | none =>
    cases hsp2 : splitOnceChar '-' tok with
    | none => exact hst
    | some kv =>
      simp only [ifmDictHasNaN] at hst ⊢
      exact hst
  | some kv =>
    obtain ⟨k, v⟩ := kv
    rw [hsp] at h
    by_cases h1 : k = "=head".toList
    · simp only [h1, if_true] at h ⊢
      have hg := getF32_ne_nan (splitNChar 5 ',' v) h
      simp only [ifmDictHasNaN, optVecHasNaN, vec3HasNaN] at hst ⊢
      simp_all
    · by_cases h2 : k = "rightEye".toList
      · simp only [h1, h2, if_false, if_true] at h ⊢
        have hg := getF32_ne_nan (splitNChar 2 ',' v) h
        simp only [ifmDictHasNaN, optVecHasNaN, vec3HasNaN] at hst ⊢
        simp_all
      · by_cases h3 : k = "leftEye".toList
        · simp only [h1, h2, h3, if_false, if_true] at h ⊢
          have hg := getF32_ne_nan (splitNChar 2 ',' v) h
          simp only [ifmDictHasNaN, optVecHasNaN, vec3HasNaN] at hst ⊢
          simp_all
        · simp only [h1, h2, h3, if_false]
          exact hst

/-- **C4 counterexample.**  Rust's `f32` parser accepts the spelling `NaN`,
so the input `=head#NaN,0,0,0,0,0` puts a NaN into the decoded head
rotation — the frame is not NaN-free. -/
theorem c4_counterexample_nan_enters_frame :
    (DataParser.ifacialMocap "=head#NaN,0,0,0,0,0".toList).rotation =
      some ⟨F32.nan, F32.num 0, F32.num 0⟩ ∧
    ifmDictHasNaN (DataParser.ifacialMocap "=head#NaN,0,0,0,0,0".toList) = true := by
  refine ⟨by decide, by decide⟩

/-- **C4** (amended).  The decoder is total — a malformed numeric field
defaults to `0.0` and never discards the frame — and the decoded frame is
NaN-free __provided__ no comma-separated chunk fed to the `f32` parser is a
spelling of NaN; a chunk that literally spells NaN parses successfully and
propagates into the frame. -/
theorem c4_no_nan_unless_nan_chunk (input : List Char)
    (h : ∀ c ∈ ifmNumChunks input, parseF32 c ≠ some F32.nan) :
    ifmDictHasNaN (DataParser.ifacialMocap input) = false := by
  unfold DataParser.ifacialMocap
  unfold ifmNumChunks at h
  have main : ∀ (toks : List (List Char)) (st : IfmDict),
      ifmDictHasNaN st = false →
      (∀ tok ∈ toks, ∀ c ∈ ifmTokenChunks tok, parseF32 c ≠ some F32.nan) →
      ifmDictHasNaN (toks.foldl ifmProcessToken st) = false := by
    intro toks
    induction toks with
    | nil => intro st hst _; exact hst
    | cons t ts ih =>
      intro st hst htoks
      simp only [List.foldl_cons]
      exact ih _ (ifmProcessToken_no_nan st t hst (htoks t (List.mem_cons_self t ts)))
        (fun tok htok => htoks tok (List.mem_cons_of_mem t htok))
  refine main _ {} (by decide) ?_
  intro tok htok c hc
  exact h c (by
    rw [List.mem_flatten]
    exact ⟨ifmTokenChunks tok, List.mem_map_of_mem ifmTokenChunks htok, hc⟩)

/-- **C4 witness.**  A frame with parsable and unparsable chunks but no NaN
spelling decodes NaN-free. -/
theorem c4_witness :
    (∀ c ∈ ifmNumChunks "=head#1,2,3,4,oops,6|Smile-50".toList,
      parseF32 c ≠ some F32.nan) ∧
    ifmDictHasNaN (DataParser.ifacialMocap "=head#1,2,3,4,oops,6|Smile-50".toList) = false :=
  ⟨by decide, c4_no_nan_unless_nan_chunk _ (by decide)⟩

/-! ## Claim C3 — absent JSON fields stay `None` -/

/-- An absent `Option` field deserialises to `None`. -/
theorem decodeOptField_absent {α : Type} (j : Json) (key : List Char)
    (dec : Json → Option α) (h : (jsonLookup j key).isNone = true) :
    decodeOptField j key dec = some none := by
  unfold decodeOptField
  cases hl : jsonLookup j key with
  | none => rfl
  | some v => rw [hl] at h; simp at h

/-- **C3 counterexample.**  The claim fails on the dictionary decoder
`DataParser::vtube_studio` (src/data_parser.rs:150-163): it inserts every
vector key unconditionally with `unwrap_or_default()`, so a document with
no `Rotation` (here the empty object) yields a present zero rotation vector
instead of an absent one — a consumer of this dictionary cannot tell "no
data this frame" from zero. -/
theorem c3_counterexample_vtube_studio_dict :
    (jsonLookup (Json.object []) ("Rotation".toList)).isNone = true ∧
    DataParser.vtubeStudio (Json.object []) =
      { rotation := Vec3F.zero, position := Vec3F.zero, eye_left := Vec3F.zero,
        eye_right := Vec3F.zero, blend_shapes := [] } := by
  refine ⟨by rfl, by rfl⟩

/-- **C3** (amended: scoped to the `VTubeStudioData::from` serde decoder,
src/model/tracking_data.rs:145-180, whose struct is what
`VrmPuppet::handle_vtube_studio` consumes).  For every JSON document, each
of `Rotation`, `Position`, `EyeLeft`, `EyeRight` that is absent from the
document is `None` in the decoded struct — never a zero vector. -/
theorem c3_vts_from_absent_field_is_none (j : Json) :
    ((jsonLookup j ("Rotation".toList)).isNone = true →
      (VTubeStudioData.fromJson j).rotation = none) ∧
    ((jsonLookup j ("Position".toList)).isNone = true →
      (VTubeStudioData.fromJson j).position = none) ∧
    ((jsonLookup j ("EyeLeft".toList)).isNone = true →
      (VTubeStudioData.fromJson j).eye_left = none) ∧
    ((jsonLookup j ("EyeRight".toList)).isNone = true →
      (VTubeStudioData.fromJson j).eye_right = none) := by
  unfold VTubeStudioData.fromJson
  cases j with
  | object fields =>
    refine ⟨?_, ?_, ?_, ?_⟩ <;> intro h <;>
      rw [decodeVts] <;>
      rw [decodeOptField_absent _ _ _ h] <;>
      rcases h1 : decodeOptField (Json.object fields) ("Rotation".toList) decodeVec3 with _ | r <;>
      rcases h2 : decodeOptField (Json.object fields) ("Position".toList) decodeVec3 with _ | p <;>
      rcases h3 : decodeOptField (Json.object fields) ("EyeLeft".toList) decodeVec3 with _ | el <;>
      rcases h4 : decodeOptField (Json.object fields) ("EyeRight".toList) decodeVec3 with _ | er <;>
      rcases h5 : decodeOptField (Json.object fields) ("BlendShapes".toList) decodeBlendShapes
        with _ | bs <;>
      simp_all
  | null => exact ⟨fun _ => rfl, fun _ => rfl, fun _ => rfl, fun _ => rfl⟩
  | boolean b => exact ⟨fun _ => rfl, fun _ => rfl, fun _ => rfl, fun _ => rfl⟩
  | number q => exact ⟨fun _ => rfl, fun _ => rfl, fun _ => rfl, fun _ => rfl⟩
  | string s => exact ⟨fun _ => rfl, fun _ => rfl, fun _ => rfl, fun _ => rfl⟩
  | array items => exact ⟨fun _ => rfl, fun _ => rfl, fun _ => rfl, fun _ => rfl⟩

/-- **C3 witness.**  A document carrying only `Position` decodes with
`rotation`, `eye_left`, `eye_right` all `None` (and the position kept). -/
theorem c3_witness :
    (VTubeStudioData.fromJson (Json.object [("Position".toList,
        Json.object [("x".toList, Json.number 1), ("y".toList, Json.number 2),
          ("z".toList, Json.number 3)])])).rotation = none ∧
    (VTubeStudioData.fromJson (Json.object [("Position".toList,
        Json.object [("x".toList, Json.number 1), ("y".toList, Json.number 2),
          ("z".toList, Json.number 3)])])).eye_left = none := by
  constructor
  · exact (c3_vts_from_absent_field_is_none _).1 (by rfl)
  · exact (c3_vts_from_absent_field_is_none _).2.2.1 (by rfl)

/-! ## Claim C5 — the expression-mapping builder -/

theorem dictLookup_map_overwrite {α β : Type} [DecidableEq α]
    (m : List (α × β)) (k k' : α) (v : β) (hne : k' ≠ k) :
    dictLookup (m.map fun p => if p.1 = k then (k, v) else p) k' = dictLookup m k' := by
  have hne2 : ¬ (k = k') := fun h => hne h.symm
  induction m with
  | nil => rfl
  | cons a m ih =>
    rw [List.map_cons]
    by_cases hak : a.1 = k
    · rw [if_pos hak]
      unfold dictLookup
      rw [List.find?_cons_of_neg _ (by simp [hne2]),
        List.find?_cons_of_neg _ (by simp [hak, hne2])]
      exact ih
    · rw [if_neg hak]
      by_cases hak' : a.1 = k'
      · unfold dictLookup
        rw [List.find?_cons_of_pos _ (by simp [hak']),
          List.find?_cons_of_pos _ (by simp [hak'])]
      · unfold dictLookup
        rw [List.find?_cons_of_neg _ (by simp [hak']),
          List.find?_cons_of_neg _ (by simp [hak'])]
        exact ih

theorem dictLookup_map_overwrite_hit {α β : Type} [DecidableEq α]
    (m : List (α × β)) (k : α) (v : β) (hmem : m.any (fun p => p.1 = k) = true) :
    dictLookup (m.map fun p => if p.1 = k then (k, v) else p) k = some v := by
  induction m with
  | nil => simp at hmem
  | cons a m ih =>
    rw [List.map_cons]
    by_cases hak : a.1 = k
    · rw [if_pos hak]
      unfold dictLookup
      rw [List.find?_cons_of_pos _ (by simp)]
      rfl
    · rw [if_neg hak]
      have hm : m.any (fun p => p.1 = k) = true := by
        rcases List.any_eq_true.mp hmem with ⟨p, hp, hpk⟩
        rcases List.mem_cons.mp hp with h | h
        · subst h; simp only [decide_eq_true_eq] at hpk; exact absurd hpk hak
        · exact List.any_eq_true.mpr ⟨p, h, hpk⟩
      unfold dictLookup
      rw [List.find?_cons_of_neg _ (by simp [hak])]
      exact ih hm

/-- Lookup after insert-with-overwrite: the inserted key reads back the new
value, every other key is untouched. -/
theorem dictLookup_dictInsert {α β : Type} [DecidableEq α]
    (m : List (α × β)) (k k' : α) (v : β) :
    dictLookup (dictInsert m k v) k' = if k' = k then some v else dictLookup m k' := by
  unfold dictInsert
  by_cases hmem : m.any (fun p => p.1 = k) = true
  · rw [if_pos hmem]
    by_cases hk : k' = k
    · subst hk; rw [if_pos rfl]; exact dictLookup_map_overwrite_hit m k' v hmem
    · rw [if_neg hk]; exact dictLookup_map_overwrite m k k' v hk
  · rw [if_neg hmem]
    by_cases hk : k' = k
    · subst hk
      have hfind : m.find? (fun p => p.1 = k') = none := by
        rw [List.find?_eq_none]
        intro p hp
        simp only [decide_eq_true_eq]
        intro hpk
        exact hmem (List.any_eq_true.mpr ⟨p, hp, by simp [hpk]⟩)
      simp [dictLookup, List.find?_append, hfind, List.find?]
    · have hk2 : ¬ (k = k') := fun h => hk h.symm
      simp only [dictLookup, List.find?_append, if_neg hk]
      cases hfind : m.find? (fun p => p.1 = k') with
      | none => simp [List.find?, hk2]
      | some p => simp

/-- One track of the source scan contributes exactly what the claim-side
qualifier says. -/
theorem morphStep_eq (morphs : List (List Char)) (t : Track) :
    morphStep morphs t = morphs ++ (trackMorph? t).toList := by
  unfold morphStep trackMorph?
  cases hk : t.kind with
  | rotation3d =>
    rcases hsp : splitOnceChar ':' t.path with _ | p <;>
      by_cases hc : t.keyCount < 1 <;> simp [hc]
  | blendShape =>
    rcases hsp : splitOnceChar ':' t.path with _ | p
    · simp
    · by_cases hc : t.keyCount < 1
      · have h0 : ¬ 1 ≤ t.keyCount := Nat.not_le.mpr hc
        simp [hc, h0]
      · have h1 : 1 ≤ t.keyCount := Nat.not_lt.mp hc
        simp [hc, h1]
  | otherKind =>
    rcases hsp : splitOnceChar ':' t.path with _ | p <;>
      by_cases hc : t.keyCount < 1 <;> simp [hc]

/-- The source's track fold equals the claim-side `filterMap`. -/
theorem morphsOfAnim_eq_qualifying (a : Anim) :
    morphsOfAnim a = qualifyingMorphs a := by
  unfold morphsOfAnim qualifyingMorphs
  suffices h : ∀ (ts : List Track) (acc : List (List Char)),
      ts.foldl morphStep acc = acc ++ ts.filterMap trackMorph? by
    simpa using h a.tracks []
  intro ts
  induction ts with
  | nil => intro acc; simp
  | cons t ts ih =>
    intro acc
    rw [List.foldl_cons, ih, morphStep_eq, List.filterMap_cons]
    cases trackMorph? t <;> simp

/-- What the builder's fold leaves at a key: the morphs of the last clip
with that (lowercased) name, or whatever the initial map held. -/
theorem populate_lookup (anims : List (List Char × Option Anim))
    (h : ∀ p ∈ anims, (p.2).isSome = true) (m0 : ExprMappings) (key : List Char) :
    dictLookup (populateExpressionMappings m0 anims) key =
      match lastAnimNamed anims key with
      | some a => some (morphsOfAnim a)
      | none => dictLookup m0 key := by
  induction anims generalizing m0 with
  | nil => simp [populateExpressionMappings, lastAnimNamed, lastClipNamed]
  | cons x rest ih =>
    obtain ⟨n, oa⟩ := x
    have hx : oa.isSome = true := h (n, oa) (List.mem_cons_self _ _)
    obtain ⟨a, rfl⟩ := Option.isSome_iff_exists.mp hx
    have hrest : ∀ p ∈ rest, (p.2).isSome = true :=
      fun p hp => h p (List.mem_cons_of_mem _ hp)
    show dictLookup (populateExpressionMappings
      (dictInsert m0 (lowerList n) (morphsOfAnim a)) rest) key = _
    rw [ih hrest]
    have hsplit : lastClipNamed ((n, some a) :: rest) key =
        (lastClipNamed rest key).or
          (if lowerList n = key then some (n, some a) else none) := by
      unfold lastClipNamed
      rw [List.reverse_cons, List.find?_append]
      by_cases hn : lowerList n = key <;> simp [List.find?, hn]
    cases hlast : lastClipNamed rest key with
    | some q =>
      have hq : q ∈ rest := by
        have := List.mem_of_find?_eq_some hlast
        exact List.mem_reverse.mp this
      have hqs : (q.2).isSome = true := hrest q hq
      obtain ⟨aq, haq⟩ := Option.isSome_iff_exists.mp hqs
      simp [lastAnimNamed, hsplit, hlast, haq]
    | none =>
      by_cases hn : lowerList n = key
      · simp [lastAnimNamed, hsplit, hlast, hn, dictLookup_dictInsert]
      · have hn2 : ¬ key = lowerList n := fun hh => hn hh.symm
        simp [lastAnimNamed, hsplit, hlast, hn, dictLookup_dictInsert, hn2]

/-- **C5.**  When every clip of the player resolves, the built mapping
binds the lowercased name of every clip; the bound list is exactly the
morph names of the clip's blend-shape-weight tracks that have at least one
keyframe and a `:`-splittable path (rotation tracks contribute nothing); a
clip with zero qualifying tracks is bound to the empty list; and a name
shared by several clips (after lowercasing) is bound to the
last-processed clip's list. -/
theorem c5_expression_mapping_builder (anims : List (List Char × Option Anim))
    (h : ∀ p ∈ anims, (p.2).isSome = true) (name : List Char) (a : Anim)
    (hlast : lastAnimNamed anims (lowerList name) = some a) :
    dictLookup (populateExpressionMappings [] anims) (lowerList name) =
      some (qualifyingMorphs a) := by
  rw [populate_lookup anims h [] (lowerList name), hlast]
  simp [morphsOfAnim_eq_qualifying]

/-- **C5 witness.**  Three clips: `Smile` has one qualifying track among
three disqualified ones; `Blink_L` and `BLINK_l` collide after lowercasing
and the later, track-less clip wins with an empty entry. -/
theorem c5_witness :
    dictLookup
      (populateExpressionMappings []
        [("Smile".toList, some ⟨[
            ⟨"Face:mouthSmile".toList, TrackKind.blendShape, 2⟩,
            ⟨"Face:headRot".toList, TrackKind.rotation3d, 3⟩,
            ⟨"nocolon".toList, TrackKind.blendShape, 1⟩,
            ⟨"Face:noKeys".toList, TrackKind.blendShape, 0⟩]⟩),
          ("Blink_L".toList, some ⟨[⟨"Face:blink".toList, TrackKind.blendShape, 1⟩]⟩),
          ("BLINK_l".toList, some ⟨[]⟩)])
      ("smile".toList) = some ["mouthSmile".toList] ∧
    dictLookup
      (populateExpressionMappings []
        [("Smile".toList, some ⟨[
            ⟨"Face:mouthSmile".toList, TrackKind.blendShape, 2⟩,
            ⟨"Face:headRot".toList, TrackKind.rotation3d, 3⟩,
            ⟨"nocolon".toList, TrackKind.blendShape, 1⟩,
            ⟨"Face:noKeys".toList, TrackKind.blendShape, 0⟩]⟩),
          ("Blink_L".toList, some ⟨[⟨"Face:blink".toList, TrackKind.blendShape, 1⟩]⟩),
          ("BLINK_l".toList, some ⟨[]⟩)])
      ("blink_l".toList) = some [] := by
  constructor
  · have h := c5_expression_mapping_builder
      [("Smile".toList, some ⟨[
          ⟨"Face:mouthSmile".toList, TrackKind.blendShape, 2⟩,
          ⟨"Face:headRot".toList, TrackKind.rotation3d, 3⟩,
          ⟨"nocolon".toList, TrackKind.blendShape, 1⟩,
          ⟨"Face:noKeys".toList, TrackKind.blendShape, 0⟩]⟩),
        ("Blink_L".toList, some ⟨[⟨"Face:blink".toList, TrackKind.blendShape, 1⟩]⟩),
        ("BLINK_l".toList, some ⟨[]⟩)]
      (by decide) ("Smile".toList)
      ⟨[⟨"Face:mouthSmile".toList, TrackKind.blendShape, 2⟩,
        ⟨"Face:headRot".toList, TrackKind.rotation3d, 3⟩,
        ⟨"nocolon".toList, TrackKind.blendShape, 1⟩,
        ⟨"Face:noKeys".toList, TrackKind.blendShape, 0⟩]⟩
      (by decide)
    rw [show lowerList "Smile".toList = "smile".toList by decide] at h
    rw [h]; decide
  · have h := c5_expression_mapping_builder
      [("Smile".toList, some ⟨[
          ⟨"Face:mouthSmile".toList, TrackKind.blendShape, 2⟩,
          ⟨"Face:headRot".toList, TrackKind.rotation3d, 3⟩,
          ⟨"nocolon".toList, TrackKind.blendShape, 1⟩,
          ⟨"Face:noKeys".toList, TrackKind.blendShape, 0⟩]⟩),
        ("Blink_L".toList, some ⟨[⟨"Face:blink".toList, TrackKind.blendShape, 1⟩]⟩),
        ("BLINK_l".toList, some ⟨[]⟩)]
      (by decide) ("Blink_L".toList) ⟨[]⟩ (by decide)
    rw [show lowerList "Blink_L".toList = "blink_l".toList by decide] at h
    rw [h]; decide

/-! ## Claim C6 — a blend-shapes-only frame moves no bones -/

/-- **C6.**  Applying a VTube Studio frame whose rotation and position are
absent (only blend shapes present) leaves the skeleton's bone poses — and
the IK armature targets driving them — exactly as they were; only the mesh
morph weights may change. -/
theorem c6_blend_only_frame_keeps_bones (maps : PuppetMaps) (data : VtsData)
    (st : AvatarState) (hrot : data.rotation = none) (hpos : data.position = none) :
    (handleVtubeStudio maps data st).bonePoses = st.bonePoses ∧
    (handleVtubeStudio maps data st).ikTargets = st.ikTargets := by
  unfold handleVtubeStudio
  rw [hrot, hpos]
  cases data.blend_shapes <;> simp

/-- **C6 witness.**  A concrete frame carrying one blend shape, applied to
a state with a live IK target set: the bone poses and IK targets survive
unchanged even though a morph weight is written. -/
theorem c6_witness :
    (handleVtubeStudio
        ⟨[("smile".toList, ["m".toList])], [("m".toList, ⟨7, "blend_shapes/m".toList, 0⟩)]⟩
        { blend_shapes := some [("Smile".toList, 1/2)] }
        { bonePoses := [(Vec3F.zero, Vec3F.zero)]
          ikTargets := some ⟨some ⟨Vec3F.zero, Vec3F.zero⟩, none, none,
            Vec3F.zero, Vec3F.zero, Vec3F.zero, Vec3F.zero⟩
          meshMorphs := [] }).bonePoses = [(Vec3F.zero, Vec3F.zero)] ∧
    (handleVtubeStudio
        ⟨[("smile".toList, ["m".toList])], [("m".toList, ⟨7, "blend_shapes/m".toList, 0⟩)]⟩
        { blend_shapes := some [("Smile".toList, 1/2)] }
        { bonePoses := [(Vec3F.zero, Vec3F.zero)]
          ikTargets := some ⟨some ⟨Vec3F.zero, Vec3F.zero⟩, none, none,
            Vec3F.zero, Vec3F.zero, Vec3F.zero, Vec3F.zero⟩
          meshMorphs := [] }).meshMorphs = [((7, "blend_shapes/m".toList), 1/2)] := by
  constructor
  · exact (c6_blend_only_frame_keeps_bones _ _ _ (by decide) (by decide)).1.trans (by decide)
  · decide

/-! ## Claim C7 — receiver lifecycle: stop before start, double start -/

/-- **C7.**  First part: `stop()` on a receiver that was never started
(no join handle) returns `ERR_UNAVAILABLE`, changes nothing, and never
reaches the blocking `join()`.  Second part: after a successful `start()`,
a second `start()` without an intervening `stop()` is deterministically
rejected — the first worker still owns the socket bound to port 21412, so
the second `UdpSocket::bind` fails and the call returns `ERR_CANT_CONNECT`
before creating a socket, a channel or a thread, leaving both the receiver
state and the OS state (bound ports, live threads) unchanged. -/
theorem c7_stop_unstarted_and_double_start :
    (∀ (st : MeowFaceState) (os : OsState), st.receiveHandle = none →
      meowFaceStop st os = (GdError.errUnavailable, st, os, false)) ∧
    (∀ (c1 c2 : Bool) (st : MeowFaceState) (os : OsState),
      (meowFaceStart c1 st os).1 = GdError.ok →
      meowFaceStart c2 (meowFaceStart c1 st os).2.1 (meowFaceStart c1 st os).2.2 =
        (GdError.errCantConnect,
          (meowFaceStart c1 st os).2.1, (meowFaceStart c1 st os).2.2)) := by
  constructor
  · intro st os h
    unfold meowFaceStop
    rw [if_pos h]
  · intro c1 c2 st os h
    unfold meowFaceStart at h ⊢
    by_cases h1 : st.ipAddress = none
    · rw [if_pos h1] at h; simp at h
    · rw [if_neg h1] at h
      by_cases h2 : 21412 ∈ os.boundPorts
      · rw [if_pos h2] at h; simp at h
      · rw [if_neg h2] at h
        by_cases h3 : ¬ c1 = true
        · rw [if_pos h3] at h; simp at h
        · rw [if_neg h3] at h
          simp only [if_neg h1, if_neg h2, if_neg h3]
          simp [h1]

/-- **C7 witness.**  A configured-but-unstarted receiver: `stop()` reports
unavailable without touching anything, and after one successful `start()`
a second `start()` is rejected with everything unchanged. -/
theorem c7_witness :
    meowFaceStop ⟨some ("10.0.0.1".toList, 21412), none, none, none⟩ ⟨[], 0⟩ =
      (GdError.errUnavailable, ⟨some ("10.0.0.1".toList, 21412), none, none, none⟩,
        ⟨[], 0⟩, false) ∧
    meowFaceStart true
        (meowFaceStart true ⟨some ("10.0.0.1".toList, 21412), none, none, none⟩ ⟨[], 0⟩).2.1
        (meowFaceStart true ⟨some ("10.0.0.1".toList, 21412), none, none, none⟩ ⟨[], 0⟩).2.2 =
      (GdError.errCantConnect,
        (meowFaceStart true ⟨some ("10.0.0.1".toList, 21412), none, none, none⟩ ⟨[], 0⟩).2.1,
        (meowFaceStart true ⟨some ("10.0.0.1".toList, 21412), none, none, none⟩ ⟨[], 0⟩).2.2) := by
  constructor
  · exact c7_stop_unstarted_and_double_start.1 _ _ (by decide)
  · exact c7_stop_unstarted_and_double_start.2 true true _ _ (by decide)

/-! ## Claim C8 — receive timeouts in the worker loop -/

/-- **C8 counterexample.**  A receive timeout is __not__ silent: the single
`Err` arm of the worker's `recv` match logs `"Unexpected error while
receiving"` at error level for every receive error, timeouts included. -/
theorem c8_counterexample_timeout_is_logged :
    (workerIteration (fun _ => none) 0 ⟨false, true, RecvOutcome.errTimeout⟩).1 =
      ⟨IterOutcome.continueLoop,
        [(LogLevel.debugL, "sent data".toList),
          (LogLevel.errorL, "Unexpected error while receiving".toList)], none⟩ := by
  decide

/-- **C8** (amended).  A receive error — timeout or not — never stops the
worker: the iteration continues to the next loop pass and forwards
nothing; but contrary to the claim, every receive error, the expected
timeout included, is logged at error level through the same arm. -/
theorem c8_recv_error_continues_and_logs (decode : List Nat → Option InData)
    (bufLen : Nat) (inp : IterInput) (hkill : inp.killSignal = false)
    (herr : inp.recv = RecvOutcome.errTimeout ∨ inp.recv = RecvOutcome.errOther) :
    (workerIteration decode bufLen inp).1.outcome = IterOutcome.continueLoop ∧
    (workerIteration decode bufLen inp).1.sent = none ∧
    (LogLevel.errorL, "Unexpected error while receiving".toList) ∈
      (workerIteration decode bufLen inp).1.logs := by
  unfold workerIteration
  rw [hkill]
  rcases herr with h | h <;> rw [h] <;> cases inp.sendOk <;> simp

/-- **C8 witness.**  A non-timeout receive error behaves the same way. -/
theorem c8_witness :
    (workerIteration (fun _ => none) 0 ⟨false, false, RecvOutcome.errOther⟩).1.outcome =
      IterOutcome.continueLoop ∧
    (workerIteration (fun _ => none) 0 ⟨false, false, RecvOutcome.errOther⟩).1.sent = none ∧
    (LogLevel.errorL, "Unexpected error while receiving".toList) ∈
      (workerIteration (fun _ => none) 0 ⟨false, false, RecvOutcome.errOther⟩).1.logs :=
  c8_recv_error_continues_and_logs (fun _ => none) 0 _ (by decide) (Or.inr (by decide))

/-! ## Claim C9 — the zero-length receive buffer -/

/-- **C9.**  The worker's receive buffer is created with
`Vec::with_capacity(1024)` — length 0 — and only ever cleared, so the
slice handed to `socket.recv` always has length 0, every datagram is
truncated to zero bytes, the JSON decode of the empty input fails
(`serde_json::from_slice` of a struct needs at least one JSON value, the
hypothesis on `decode`), and the worker never forwards a frame, whatever
the trace of datagrams. -/
theorem c9_worker_never_forwards (decode : List Nat → Option InData)
    (hdec : decode [] = none) (inputs : List IterInput) :
    workerRun decode 0 inputs = [] := by
  induction inputs with
  | nil => rfl
  | cons inp rest ih =>
    unfold workerRun workerIteration
    cases hk : inp.killSignal
    · rcases hr : inp.recv with bytes | _ | _ <;> cases hs : inp.sendOk <;>
        simp [hdec, hk, hr, hs, ih]
    · simp

/-- **C9 witness.**  A run that receives perfectly valid JSON datagrams
still forwards nothing. -/
theorem c9_witness :
    workerRun (fun b => if b = [] then none else some
        ⟨0, 0, true, Vec3F.zero, Vec3F.zero, Vec3F.zero, Vec3F.zero, []⟩) 0
      [⟨false, true, RecvOutcome.gotDatagram [123, 125]⟩,
        ⟨false, true, RecvOutcome.gotDatagram [1, 2, 3]⟩] = [] :=
  c9_worker_never_forwards _ (by decide) _

/-! ## Claim C10 — poll before a successful start panics -/

/-- **C10.**  `MeowFace::poll` starts with
`self.receiver.as_ref().unwrap()`: on a receiver whose data-channel end was
never installed — as in a fresh `MeowFace::new()`, and `start()` installs
it only on its `OK` path — the call panics on unwrapping `None` instead of
returning harmlessly; the non-blocking, non-crashing behaviour of `poll`
presupposes a successful `start`. -/
theorem c10_poll_unstarted_crashes :
    (∀ (st : MeowFaceState) (os : OsState) (chan : TryRecvOutcome),
      st.receiver = none → meowFacePoll st os chan = Except.error Crash.unwrapNone) ∧
    meowFaceNew.receiver = none ∧
    (∀ (c : Bool) (st : MeowFaceState) (os : OsState),
      (meowFaceStart c st os).1 ≠ GdError.ok →
      (meowFaceStart c st os).2.1.receiver = st.receiver) := by
  refine ⟨?_, rfl, ?_⟩
  · intro st os chan h
    unfold meowFacePoll
    rw [h]
  · intro c st os h
    unfold meowFaceStart at h ⊢
    by_cases h1 : st.ipAddress = none
    · rw [if_pos h1]
    · rw [if_neg h1] at h ⊢
      by_cases h2 : 21412 ∈ os.boundPorts
      · rw [if_pos h2]
      · rw [if_neg h2] at h ⊢
        by_cases h3 : ¬ c = true
        · rw [if_pos h3]
        · rw [if_neg h3] at h
          exact absurd rfl h

/-- **C10 witness.**  Polling a freshly created receiver panics. -/
theorem c10_witness :
    meowFacePoll meowFaceNew ⟨[], 0⟩ TryRecvOutcome.empty =
      Except.error Crash.unwrapNone :=
  c10_poll_unstarted_crashes.1 meowFaceNew ⟨[], 0⟩ TryRecvOutcome.empty (by decide)

end Vpuppr
